import Mathlib

/-!
Verification of the `cy` safety containers (`Maybe<T>` / `Result<T, E>`)
against their specification.

The definitions below are a shallow embedding of `src/include/CY/safety.hpp`
(version 2.0.0, the current header) and, for the clone operations, of the
v1.0.0 revision of the same header kept in `src/unnamed/part_002`.

Modelling conventions:
- A C++ `union { T value; }` guarded by a boolean flag is embedded as an
  `Option T` slot: `some v` means a live `T` is in storage, `none` means the
  storage holds no meaningful `T` (never constructed, or moved out).
- A throwing member function returns `OpResult` instead: `.ok a` is a normal
  return, `.err e` is a thrown exception (carrying the exact message of the
  source `throw` plus the abstract error kind of the spec for that throw
  site), and `.deadRead` marks a read of dead union storage, which the source
  would perform as an unchecked access — it can never arise from states built
  through the public constructors.
- A mutating member function additionally returns the updated object state.
- `Maybe<T&>` / `Some<T&>` store `T*`; the pointer is embedded as a value of
  an abstract address type `Addr`.
-/

namespace Cy

/-- The error taxonomy of the spec (§7): `EmptyAccess`, `WrongChannel`,
`Consumed`. Each `throw` site of the source is tagged with exactly one kind. -/
inductive ErrKind where
  | EmptyAccess
  | WrongChannel
  | Consumed
  deriving DecidableEq, Repr

/-- A thrown exception: the abstract kind together with the exact
`std::runtime_error` / `std::exception` message of the source throw site. -/
structure CyErr where
  kind : ErrKind
  msg : String
  deriving DecidableEq, Repr

/-- Outcome of a member-function call: normal return, thrown exception, or an
unchecked read of dead union storage (unreachable from constructed states). -/
inductive OpResult (α : Type) where
  | ok (a : α)
  | err (e : CyErr)
  | deadRead
  deriving DecidableEq, Repr

/-- True exactly when the outcome is a thrown exception. -/
def OpResult.isThrow {α : Type} : OpResult α → Bool
  | .err _ => true
  | _ => false

/-! ## `Maybe<T>` (safety.hpp v2.0.0, lines 72-182) -/

/-- `cy::Maybe<T>`: `bool has_value;` plus `union { T value; }`.
The union slot is `store : Option T` (see the modelling conventions). -/
structure Maybe (T : Type) where
  has_value : Bool
  store : Option T
  deriving DecidableEq, Repr

/-- Constructor `Maybe(Some<T> some)`: `has_value(true), value(move(some.val))`. -/
def Maybe.fromSome {T : Type} (v : T) : Maybe T := ⟨true, some v⟩

/-- Constructor `Maybe(None)`: `has_value(false)`, union left unconstructed. -/
def Maybe.fromNone {T : Type} : Maybe T := ⟨false, none⟩

/-- Default constructor `Maybe()`: `has_value(false)`, union left unconstructed. -/
def Maybe.mkDefault {T : Type} : Maybe T := ⟨false, none⟩

/-- `Maybe::is_some()`: returns `has_value`. -/
def Maybe.is_some {T : Type} (m : Maybe T) : Bool := m.has_value

/-- `Maybe::is_none()`: returns `!is_some()`. -/
def Maybe.is_none {T : Type} (m : Maybe T) : Bool := !m.is_some

/-- Message of the `throw` in `Maybe::get`. -/
def getNoneMsg : String := "Called .get() on a none value"

/-- Message of the `throw` in `Maybe::unwrap`. -/
def unwrapNoneMsg : String := "Called .unwrap() on a none value"

/-- `Maybe::get()`: throws if `!has_value`, else `get_unchecked()` reads the
union slot. -/
def Maybe.get {T : Type} (m : Maybe T) : OpResult T :=
  if !m.has_value then .err ⟨.EmptyAccess, getNoneMsg⟩
  else
    match m.store with
    | some v => .ok v
    | none => .deadRead

/-- `Maybe::unwrap()`: throws if `!has_value`; else `unwrap_unchecked()` sets
`has_value = false` and moves the value out of the union slot. -/
def Maybe.unwrap {T : Type} (m : Maybe T) : OpResult T × Maybe T :=
  if !m.has_value then (.err ⟨.EmptyAccess, unwrapNoneMsg⟩, m)
  else
    match m.store with
    | some v => (.ok v, ⟨false, none⟩)
    | none => (.deadRead, ⟨false, none⟩)

/-- `Maybe::map<U>(func)`: if `has_value`, returns
`Some(func(unwrap_unchecked()))`, consuming the source; else returns `None()`
without calling `func`. The `Nat` component counts the invocations of `func`. -/
def Maybe.map {T U : Type} (func : T → U) (m : Maybe T) :
    OpResult (Maybe U) × Maybe T × Nat :=
  if m.has_value then
    match m.store with
    | some v => (.ok (Maybe.fromSome (func v)), ⟨false, none⟩, 1)
    | none => (.deadRead, ⟨false, none⟩, 0)
  else (.ok Maybe.fromNone, m, 0)

/-! ## `Maybe<T&>` (safety.hpp v2.0.0, lines 230-294)

`Some<T&>` and `Maybe<T&>` hold `T*` instead of a reference; the pointer is
embedded as a value of the abstract address type `Addr`. -/

/-- `cy::Some<T&>`: `T* val;` — constructed from `T& value` as `val(&value)`,
so `addr` is the address of the externally-owned referent. -/
structure SomeRef (Addr : Type) where
  addr : Addr
  deriving DecidableEq, Repr

/-- `cy::Maybe<T&>`: `bool has_value; T* value;`. The pointer slot is
`Option Addr` (`none` models the uninitialized pointer of the none case). -/
structure MaybeRef (Addr : Type) where
  has_value : Bool
  value : Option Addr
  deriving DecidableEq, Repr

/-- Constructor `Maybe(Some<T&> some)`: `has_value(true), value(some.val)` —
it copies the non-owning pointer. -/
def MaybeRef.fromSome {Addr : Type} (s : SomeRef Addr) : MaybeRef Addr :=
  ⟨true, some s.addr⟩

/-- Constructor `Maybe(None)` for `Maybe<T&>`. -/
def MaybeRef.fromNone {Addr : Type} : MaybeRef Addr := ⟨false, none⟩

/-- `Maybe<T&>::is_some()`. -/
def MaybeRef.is_some {Addr : Type} (m : MaybeRef Addr) : Bool := m.has_value

/-- `Maybe<T&>::unwrap()`: throws if `!has_value`; else `unwrap_unchecked()`
sets `has_value = false` and returns `*value`, the referent at the stored
address (the pointer member itself is not cleared). -/
def MaybeRef.unwrap {Addr : Type} (m : MaybeRef Addr) : OpResult Addr × MaybeRef Addr :=
  if !m.has_value then (.err ⟨.EmptyAccess, unwrapNoneMsg⟩, m)
  else
    match m.value with
    | some a => (.ok a, ⟨false, some a⟩)
    | none => (.deadRead, ⟨false, none⟩)

/-! ## `Result<T, E>` (safety.hpp v2.0.0, lines 333-465) -/

/-- `cy::Result<T, E>`: `bool is_error; bool has_data;` plus
`union { T value; E error; }`. The two union members are embedded as two
`Option` slots; the source constructs exactly one of them. -/
structure Result (T E : Type) where
  is_error : Bool
  has_data : Bool
  value : Option T
  error : Option E
  deriving DecidableEq, Repr

/-- Constructor `Result(Ok<T> ok)`: `is_error(false), has_data(true),
value(ok.take())`. -/
def Result.fromOk {T E : Type} (v : T) : Result T E := ⟨false, true, some v, none⟩

/-- Constructor `Result(Err<E> err)`: `is_error(true), has_data(true),
error(err.take())`. -/
def Result.fromErr {T E : Type} (e : E) : Result T E := ⟨true, true, none, some e⟩

/-- `Result::is_err()`: returns `is_error`. -/
def Result.is_err {T E : Type} (r : Result T E) : Bool := r.is_error

/-- `Result::is_ok()`: returns `!is_err()`. -/
def Result.is_ok {T E : Type} (r : Result T E) : Bool := !r.is_err

/-- Message of the first `throw` of `CHECK_IF_VALID_T(func)`. -/
def errorValueMsg (func : String) : String :=
  "Called " ++ func ++ " on an error value"

/-- Message of the second `throw` of `CHECK_IF_VALID_T(func)`. -/
def movedTMsg (func : String) : String :=
  "Called " ++ func ++ " on a moved value (Result had T, but was unwrapped)"

/-- Message of the first `throw` of `CHECK_IF_VALID_E(func)`. -/
def okValueMsg (func : String) : String :=
  "Called " ++ func ++ " on an ok value"

/-- Message of the second `throw` of `CHECK_IF_VALID_E(func)`. -/
def movedEMsg (func : String) : String :=
  "Called " ++ func ++ " on a moved value (Result had E, but was unwrapped)"

/-- Argument string passed to the check macros by `Result::get`. -/
def getFnName : String := ".get()"

/-- Argument string passed to the check macros by `Result::get_err`. -/
def getErrFnName : String := ".get_err()"

/-- Argument string passed to the check macros by `Result::unwrap`. -/
def unwrapFnName : String := ".unwrap()"

/-- Argument string passed to the check macros by `Result::unwrap_err`. -/
def unwrapErrFnName : String := ".unwrap_err()"

/-- The `CHECK_IF_VALID_T(func)` macro: first throws `WrongChannel` if
`is_error`, then throws `Consumed` if `!has_data`; `none` means no throw. -/
def checkValidT {T E : Type} (func : String) (r : Result T E) : Option CyErr :=
  if r.is_error then some ⟨.WrongChannel, errorValueMsg func⟩
  else if !r.has_data then some ⟨.Consumed, movedTMsg func⟩
  else none

/-- The `CHECK_IF_VALID_E(func)` macro: first throws `WrongChannel` if
`!is_error`, then throws `Consumed` if `!has_data`. -/
def checkValidE {T E : Type} (func : String) (r : Result T E) : Option CyErr :=
  if !r.is_error then some ⟨.WrongChannel, okValueMsg func⟩
  else if !r.has_data then some ⟨.Consumed, movedEMsg func⟩
  else none

/-- `Result::get()`: `CHECK_IF_VALID_T(".get()")`, then `get_unchecked()`
reads the value slot. No state change. -/
def Result.get {T E : Type} (r : Result T E) : OpResult T :=
  match checkValidT getFnName r with
  | some e => .err e
  | none =>
    match r.value with
    | some v => .ok v
    | none => .deadRead

/-- `Result::get_err()`: `CHECK_IF_VALID_E(".get_err()")`, then
`get_err_unchecked()` reads the error slot. No state change. -/
def Result.get_err {T E : Type} (r : Result T E) : OpResult E :=
  match checkValidE getErrFnName r with
  | some e => .err e
  | none =>
    match r.error with
    | some e => .ok e
    | none => .deadRead

/-- `Result::unwrap()`: `CHECK_IF_VALID_T(".unwrap()")`, then
`unwrap_unchecked()` sets `has_data = false` and moves the value out. -/
def Result.unwrap {T E : Type} (r : Result T E) : OpResult T × Result T E :=
  match checkValidT unwrapFnName r with
  | some e => (.err e, r)
  | none =>
    match r.value with
    | some v => (.ok v, { r with has_data := false, value := none })
    | none => (.deadRead, { r with has_data := false, value := none })

/-- `Result::unwrap_err()`: `CHECK_IF_VALID_E(".unwrap_err()")`, then
`unwrap_err_unchecked()` sets `has_data = false` and moves the error out. -/
def Result.unwrap_err {T E : Type} (r : Result T E) : OpResult E × Result T E :=
  match checkValidE unwrapErrFnName r with
  | some e => (.err e, r)
  | none =>
    match r.error with
    | some e => (.ok e, { r with has_data := false, error := none })
    | none => (.deadRead, { r with has_data := false, error := none })

/-- `Result::ok()`: if `!is_error && has_data`, returns
`Some<T>(unwrap_unchecked())` (consuming the value); otherwise returns
`None()` and leaves the state untouched. It contains no `throw`. -/
def Result.ok {T E : Type} (r : Result T E) : OpResult (Maybe T) × Result T E :=
  if !r.is_error && r.has_data then
    match r.value with
    | some v => (.ok (Maybe.fromSome v), { r with has_data := false, value := none })
    | none => (.deadRead, { r with has_data := false, value := none })
  else (.ok Maybe.fromNone, r)

/-- `Result::err()`: if `is_error && has_data`, returns
`Some<E>(unwrap_err_unchecked())`; otherwise returns `None()`. -/
def Result.err {T E : Type} (r : Result T E) : OpResult (Maybe E) × Result T E :=
  if r.is_error && r.has_data then
    match r.error with
    | some e => (.ok (Maybe.fromSome e), { r with has_data := false, error := none })
    | none => (.deadRead, { r with has_data := false, error := none })
  else (.ok Maybe.fromNone, r)

/-! ## State machine over `Result` operations

One label per public member function of `Result<T, E>`; `Result.step` is the
state transition the source performs for that call (query and reference
accessors do not mutate; `unwrap` / `unwrap_err` / `ok` / `err` mutate as
defined above). -/

/-- Labels for the public operations of `Result<T, E>`. -/
inductive ROp where
  | isOkQ
  | isErrQ
  | getQ
  | getErrQ
  | unwrapOp
  | unwrapErrOp
  | okOp
  | errOp
  deriving DecidableEq, Repr

/-- State transition of one `Result` member call. `is_ok` / `is_err` /
`get` / `get_err` are `const` (or mutate nothing); the rest update as in the
source. -/
def Result.step {T E : Type} (r : Result T E) : ROp → Result T E
  | .isOkQ => r
  | .isErrQ => r
  | .getQ => r
  | .getErrQ => r
  | .unwrapOp => (Result.unwrap r).2
  | .unwrapErrOp => (Result.unwrap_err r).2
  | .okOp => (Result.ok r).2
  | .errOp => (Result.err r).2

/-- Run a sequence of `Result` member calls from a state. -/
def Result.run {T E : Type} (r : Result T E) : List ROp → Result T E
  | [] => r
  | op :: ops => Result.run (r.step op) ops

/-! ## v1.0.0 revision (`src/unnamed/part_002`): the clone operations

The v1 header is an earlier revision of the same library: `Maybe<T>` stores a
plain `T val;` (default-constructed in the `None` case — v1 requires class
types to be default constructible) plus `bool has_Val;`, and `Result<T, E>`
stores `union { T val; E err; }` plus `bool is_Error;` with no consumed flag.
All three clone operations are `const` member functions. -/

/-- v1 `cy::Maybe<T>`: `T val; bool has_Val;` (`val` is a plain member, so it
always holds a `T`). -/
structure MaybeV1 (T : Type) where
  val : T
  has_Val : Bool
  deriving DecidableEq, Repr

/-- v1 constructor `Maybe(Some<T> val)`. -/
def MaybeV1.fromSome {T : Type} (v : T) : MaybeV1 T := ⟨v, true⟩

/-- v1 constructor `Maybe(None)`: `has_Val(false)`; `val` is the
default-constructed `T`, passed here explicitly as `d`. -/
def MaybeV1.fromNone {T : Type} (d : T) : MaybeV1 T := ⟨d, false⟩

/-- v1 `Maybe::has_Value()`. -/
def MaybeV1.has_Value {T : Type} (m : MaybeV1 T) : Bool := m.has_Val

/-- Message of the `throw` in v1 `Maybe::CloneSome`. -/
def cloneSomeNoneMsg : String := "Called CloneSome() on a None value."

/-- v1 `Maybe::CloneSome() const&`: throws if `!has_Value()`, else returns a
copy of `val` (`some_unchecked()` by value). Being `const`, the state is
returned unchanged. -/
def MaybeV1.CloneSome {T : Type} (m : MaybeV1 T) : OpResult T × MaybeV1 T :=
  (if !m.has_Value then .err ⟨.EmptyAccess, cloneSomeNoneMsg⟩ else .ok m.val, m)

/-- v1 `cy::Result<T, E>`: `union { T val; E err; }; bool is_Error;`. -/
structure ResultV1 (T E : Type) where
  val : Option T
  err : Option E
  is_Error : Bool
  deriving DecidableEq, Repr

/-- v1 constructor `Result(Ok<T> value)`. -/
def ResultV1.fromOk {T E : Type} (v : T) : ResultV1 T E := ⟨some v, none, false⟩

/-- v1 constructor `Result(Err<E> error)`. -/
def ResultV1.fromErr {T E : Type} (e : E) : ResultV1 T E := ⟨none, some e, true⟩

/-- v1 `Result::is_Err()`. -/
def ResultV1.is_Err {T E : Type} (r : ResultV1 T E) : Bool := r.is_Error

/-- Message of the `throw` in v1 `Result::CloneOk`. -/
def cloneOkErrMsg : String := "Called CloneOk() on an Error value."

/-- Message of the `throw` in v1 `Result::CloneErr`. -/
def cloneErrOkMsg : String := "Called CloneErr() on an Ok value."

/-- v1 `Result::CloneOk() const&`: throws if `is_Err()`, else returns a copy
of the ok value (`ok_unchecked()` by value). `const`: state unchanged. -/
def ResultV1.CloneOk {T E : Type} (r : ResultV1 T E) : OpResult T × ResultV1 T E :=
  (if r.is_Err then .err ⟨.WrongChannel, cloneOkErrMsg⟩
   else
     match r.val with
     | some v => .ok v
     | none => .deadRead,
   r)

/-- v1 `Result::CloneErr() const&`: throws if `!is_Err()`, else returns a copy
of the error value (`err_unchecked()` by value). `const`: state unchanged. -/
def ResultV1.CloneErr {T E : Type} (r : ResultV1 T E) : OpResult E × ResultV1 T E :=
  (if !r.is_Err then .err ⟨.WrongChannel, cloneErrOkMsg⟩
   else
     match r.err with
     | some e => .ok e
     | none => .deadRead,
   r)

/-! ## Claims about `Maybe<T>` -/

/-- C3: for every value v, `Maybe(Some(v))` has `is_some()` true, `get()`
returns v, `unwrap()` returns v and `is_some()` is false afterward; and a
repeated `unwrap()` after the first fails cleanly with `EmptyAccess` rather
than performing an unchecked read — the `has_value` flag is authoritative
(once it is false, `unwrap` reports the clean error whatever the storage
slot holds). -/
theorem maybe_present_lifecycle (T : Type) (v : T) (st : Option T) :
    (Maybe.fromSome v).is_some = true
    ∧ (Maybe.fromSome v).get = .ok v
    ∧ (Maybe.fromSome v).unwrap = (.ok v, (⟨false, none⟩ : Maybe T))
    ∧ ((Maybe.fromSome v).unwrap).2.is_some = false
    ∧ ((Maybe.fromSome v).unwrap).2.unwrap =
        (.err ⟨.EmptyAccess, unwrapNoneMsg⟩, ((Maybe.fromSome v).unwrap).2)
    ∧ (⟨false, st⟩ : Maybe T).unwrap =
        (.err ⟨.EmptyAccess, unwrapNoneMsg⟩, (⟨false, st⟩ : Maybe T)) :=
  ⟨rfl, rfl, rfl, rfl, rfl, rfl⟩

/-- C4: for every T, `Maybe(None)` has `is_none()` true, and both `get()` and
`unwrap()` on it fail with `EmptyAccess`, leaving the Maybe absent. -/
theorem maybe_absent_access (T : Type) :
    (Maybe.fromNone : Maybe T).is_none = true
    ∧ (Maybe.fromNone : Maybe T).get = .err ⟨.EmptyAccess, getNoneMsg⟩
    ∧ (Maybe.fromNone : Maybe T).unwrap =
        (.err ⟨.EmptyAccess, unwrapNoneMsg⟩, Maybe.fromNone)
    ∧ ((Maybe.fromNone : Maybe T).unwrap).2.is_none = true :=
  ⟨rfl, rfl, rfl, rfl⟩

/-- C5: mapping an absent Maybe through f yields an absent Maybe of the target
type with zero invocations of f; mapping `Maybe(Some(v))` through f yields
`Maybe(Some(f v))` with exactly one invocation of f, and the source is
consumed (no longer present afterward). -/
theorem maybe_map_spec (T U : Type) (f : T → U) (v : T) :
    Maybe.map f (Maybe.fromNone : Maybe T) = (.ok Maybe.fromNone, Maybe.fromNone, 0)
    ∧ Maybe.map f (Maybe.fromSome v) =
        (.ok (Maybe.fromSome (f v)), (⟨false, none⟩ : Maybe T), 1)
    ∧ ((Maybe.map f (Maybe.fromSome v)).2.1).is_some = false :=
  ⟨rfl, rfl, rfl⟩

/-- C9: an `Maybe<T&>` built from `Some<T&>(x)` stores the non-owning pointer
to x (the stored pointer is exactly the address of x), and `unwrap()` returns the
referent at that address — the same object, not a copy. -/
theorem maybe_ref_address (Addr : Type) (x : Addr) :
    (MaybeRef.fromSome (⟨x⟩ : SomeRef Addr)).value = some x
    ∧ (MaybeRef.fromSome (⟨x⟩ : SomeRef Addr)).is_some = true
    ∧ ((MaybeRef.fromSome (⟨x⟩ : SomeRef Addr)).unwrap).1 = .ok x :=
  ⟨rfl, rfl, rfl⟩

/-- C10: a default-constructed `Maybe()` is absent: `is_some()` is false,
`is_none()` is true, and `get()` / `unwrap()` fail with `EmptyAccess`. -/
theorem maybe_default_is_absent (T : Type) :
    (Maybe.mkDefault : Maybe T).is_some = false
    ∧ (Maybe.mkDefault : Maybe T).is_none = true
    ∧ (Maybe.mkDefault : Maybe T).get = .err ⟨.EmptyAccess, getNoneMsg⟩
    ∧ (Maybe.mkDefault : Maybe T).unwrap =
        (.err ⟨.EmptyAccess, unwrapNoneMsg⟩, Maybe.mkDefault) :=
  ⟨rfl, rfl, rfl, rfl⟩

/-! ## Claims about `Result<T, E>` -/

/-- C1: for every success value v, `Result(Ok(v))` has `is_ok()` true; the
first `unwrap()` returns v; a second `unwrap()` fails with the `Consumed`
kind; `unwrap_err()` on the success Result fails with `WrongChannel`; and the
channel check runs before the consumed check: even on an already-consumed
success Result, `unwrap_err()` still reports `WrongChannel`, not `Consumed`. -/
theorem result_success_lifecycle (T E : Type) (v : T) :
    (Result.fromOk (E := E) v).is_ok = true
    ∧ (Result.fromOk (E := E) v).unwrap =
        (.ok v, (⟨false, false, none, none⟩ : Result T E))
    ∧ (((Result.fromOk (E := E) v).unwrap).2).unwrap.1 =
        .err ⟨.Consumed, movedTMsg unwrapFnName⟩
    ∧ (Result.fromOk (E := E) v).unwrap_err =
        (.err ⟨.WrongChannel, okValueMsg unwrapErrFnName⟩, Result.fromOk v)
    ∧ (((Result.fromOk (E := E) v).unwrap).2).unwrap_err.1 =
        .err ⟨.WrongChannel, okValueMsg unwrapErrFnName⟩ :=
  ⟨rfl, rfl, rfl, rfl, rfl⟩

/-- C2: `Result::ok()` never throws on any state; on a failure Result it
returns `None` and leaves the state untouched; on an already-consumed success
Result it returns `None` and leaves the state untouched; on a fresh success
Result it returns `Some(v)` and marks the Result consumed. -/
theorem result_ok_conversion (T E : Type) (v : T) (e : E) (r : Result T E) :
    ((Result.ok r).1).isThrow = false
    ∧ (Result.fromErr (T := T) e).ok = (.ok Maybe.fromNone, Result.fromErr e)
    ∧ (((Result.fromOk (E := E) v).unwrap).2).ok =
        (.ok Maybe.fromNone, ((Result.fromOk (E := E) v).unwrap).2)
    ∧ (Result.fromOk (E := E) v).ok =
        (.ok (Maybe.fromSome v), (⟨false, false, none, none⟩ : Result T E)) := by
  refine ⟨?_, rfl, rfl, rfl⟩
  rcases r with ⟨ie, hd, vv, ee⟩
  cases ie <;> cases hd <;> cases vv <;> rfl

/-- C6: for every error value e, `Result(Err(e))` has `is_err()` true;
`unwrap_err()` returns e (consuming the error); and `unwrap()` on it fails
with the `WrongChannel` kind, leaving the state untouched. -/
theorem result_failure_lifecycle (T E : Type) (e : E) :
    (Result.fromErr (T := T) e).is_err = true
    ∧ (Result.fromErr (T := T) e).unwrap_err =
        (.ok e, (⟨true, false, none, none⟩ : Result T E))
    ∧ (Result.fromErr (T := T) e).unwrap =
        (.err ⟨.WrongChannel, errorValueMsg unwrapFnName⟩, Result.fromErr e) :=
  ⟨rfl, rfl, rfl⟩

/-- Each single operation leaves the channel bit unchanged. -/
theorem step_preserves_channel {T E : Type} (r : Result T E) (op : ROp) :
    (r.step op).is_error = r.is_error := by
  rcases r with ⟨ie, hd, vv, ee⟩
  cases op <;> cases ie <;> cases hd <;> cases vv <;> cases ee <;> rfl

/-- Each single operation never resets the consumed bit. -/
theorem step_never_resets {T E : Type} (r : Result T E) (op : ROp)
    (h : r.has_data = false) : (r.step op).has_data = false := by
  rcases r with ⟨ie, hd, vv, ee⟩
  cases hd
  · cases op <;> cases ie <;> cases vv <;> cases ee <;> rfl
  · exact absurd h (by simp)

/-- A whole call sequence leaves the channel bit unchanged. -/
theorem run_preserves_channel {T E : Type} (ops : List ROp) (r : Result T E) :
    (Result.run r ops).is_error = r.is_error := by
  induction ops generalizing r with
  | nil => rfl
  | cons op ops ih => exact (ih (r.step op)).trans (step_preserves_channel r op)

/-- A whole call sequence never resets the consumed bit. -/
theorem run_never_resets {T E : Type} (ops : List ROp) (r : Result T E)
    (h : r.has_data = false) : (Result.run r ops).has_data = false := by
  induction ops generalizing r with
  | nil => exact h
  | cons op ops ih => exact ih (r.step op) (step_never_resets r op h)

/-- The consumed bit flips (true to false `has_data`, i.e. not-consumed to
consumed) on one operation exactly when the payload is present and the
operation takes the active channel. -/
theorem step_consumes_iff {T E : Type} (r : Result T E) (op : ROp) :
    ((r.step op).has_data = false ∧ r.has_data = true) ↔
      (r.has_data = true ∧
        (if r.is_error = true then op = ROp.unwrapErrOp ∨ op = ROp.errOp
         else op = ROp.unwrapOp ∨ op = ROp.okOp)) := by
  rcases r with ⟨ie, hd, vv, ee⟩
  cases op <;> cases ie <;> cases hd <;> cases vv <;> cases ee <;> simp [Result.step,
    Result.unwrap, Result.unwrap_err, Result.ok, Result.err, checkValidT, checkValidE]

/-- C7: over every sequence of `Result` operations, the channel bit
(`is_error`) is fixed at construction and never changes; the consumed bit
(`has_data = false`) is never reset once set; and a single operation sets it
exactly when the payload is still present and the operation takes the active
channel (`unwrap`/`ok` on a success, `unwrap_err`/`err` on a failure). -/
theorem result_two_bit_machine (T E : Type) (r : Result T E) (ops : List ROp)
    (op : ROp) :
    (Result.run r ops).is_error = r.is_error
    ∧ (r.has_data = false → (Result.run r ops).has_data = false)
    ∧ (((r.step op).has_data = false ∧ r.has_data = true) ↔
        (r.has_data = true ∧
          (if r.is_error = true then op = ROp.unwrapErrOp ∨ op = ROp.errOp
           else op = ROp.unwrapOp ∨ op = ROp.okOp))) :=
  ⟨run_preserves_channel ops r, run_never_resets ops r, step_consumes_iff r op⟩

/-- Witness for C7 at `Result<Nat, Nat>`: starting from `Ok 1` already
unwrapped (consumed) and running one more operation, the consumed bit stays
set. -/
theorem result_two_bit_machine_w :
    (Result.run (((Result.fromOk (T := Nat) (E := Nat) 1).unwrap).2)
      [ROp.okOp]).has_data = false :=
  (result_two_bit_machine Nat Nat (((Result.fromOk 1).unwrap).2) [ROp.okOp]
    ROp.okOp).2.1 rfl

/-- C8: the v1 clone operations return a copy of the payload, fail with
`EmptyAccess` when the Maybe is absent (and with `WrongChannel` on the wrong
Result channel), never change the container state — in particular never the
consumed state — and two consecutive clones return equal values. -/
theorem clone_ops_spec (T E : Type) (v d : T) (e : E) (m : MaybeV1 T)
    (r : ResultV1 T E) :
    MaybeV1.CloneSome (MaybeV1.fromNone d) =
        (.err ⟨.EmptyAccess, cloneSomeNoneMsg⟩, MaybeV1.fromNone d)
    ∧ MaybeV1.CloneSome (MaybeV1.fromSome v) = (.ok v, MaybeV1.fromSome v)
    ∧ (MaybeV1.CloneSome m).2 = m
    ∧ (MaybeV1.CloneSome ((MaybeV1.CloneSome (MaybeV1.fromSome v)).2)).1 =
        (MaybeV1.CloneSome (MaybeV1.fromSome v)).1
    ∧ ResultV1.CloneOk (ResultV1.fromOk (E := E) v) = (.ok v, ResultV1.fromOk v)
    ∧ (ResultV1.CloneOk r).2 = r
    ∧ (ResultV1.CloneOk ((ResultV1.CloneOk (ResultV1.fromOk (E := E) v)).2)).1 =
        (ResultV1.CloneOk (ResultV1.fromOk (E := E) v)).1
    ∧ ResultV1.CloneErr (ResultV1.fromErr (T := T) e) = (.ok e, ResultV1.fromErr e)
    ∧ (ResultV1.CloneErr r).2 = r
    ∧ (ResultV1.CloneErr ((ResultV1.CloneErr (ResultV1.fromErr (T := T) e)).2)).1 =
        (ResultV1.CloneErr (ResultV1.fromErr (T := T) e)).1 :=
  ⟨rfl, rfl, rfl, rfl, rfl, rfl, rfl, rfl, rfl, rfl⟩

end Cy
